import Mathlib

set_option autoImplicit false

namespace EdgeMining

/-!
Shallow embedding of `edge_mining.application.services.adapter_service.AdapterService`
(src/edge_mining/application/services/adapter_service.py).

Conventions of the embedding:
* Python `EntityId` is a string newtype, so an empty string is falsy in
  `if entity.external_service_id:` checks; `EntityId := String` here.
* A constructed runtime object is an `RValue`: `cat` records which capability
  port its class satisfies (what Python `isinstance(x, SomePort)` checks) and
  `tag` distinguishes distinct instances.  Entity dataclass instances and port
  objects are always truthy in Python; `Option` encodes `None` vs an object.
* Repositories and adapter factories are external collaborators; they are
  fields of an `Env` record.  A factory call returns `Except PyErr RValue`
  (an instance, or a raised exception).  Every factory/constructor call bumps
  a per-category counter in the state, so invocation counts are observable.
* `self.logger` may be `None`; `Env.logger : Bool` says whether it is present,
  and `logOn` appends a structured `LogEvent` only when it is.
* Methods are state-passing functions `Env → St → args → result × St`.
  A method that can let a Python exception escape returns `Except PyErr _`;
  the mutable fields of the service (the two caches, plus the observation-only
  log and counters) live in `St`.
* Python dicts keyed by `EntityId` are association lists with `dlookup`
  (first binding wins), `dset` (update in place or append) and `ddel`.
-/

/-- Identifier naming a configuration entity or external service
(Python `EntityId`, a string newtype). -/
abbrev EntityId := String

/-- Opaque token standing for an adapter configuration payload; the registry
only passes it through to factories, never inspects it.  A payload object is
always truthy, so `Option Config` with `none` for Python `None` captures the
`if not entity.config:` checks. -/
abbrev Config := Nat

/-- The capability-port categories of the system (EnergyMonitorPort,
MinerControlPort, NotificationPort, ForecastProviderPort,
HomeForecastProviderPort, MiningPerformanceTrackerPort, ExternalServicePort). -/
inductive PortCat where
  | energyMonitor
  | minerControl
  | notification
  | forecastProvider
  | homeForecastProvider
  | perfTracker
  | externalService
  deriving DecidableEq

/-- A constructed runtime object: `cat` is the capability port its class
satisfies (this is what the `isinstance` cache guards test), `tag`
distinguishes distinct instances (reference identity). -/
structure RValue where
  cat : PortCat
  tag : Nat
  deriving DecidableEq

/-- Modelled from the spec: closed `adapter_type` enum for external services;
`OTHER` stands for any member not handled by the service (the
`Unsupported external service type` branch). -/
inductive ExternalServiceAdapter where
  | HOME_ASSISTANT_API
  | OTHER
  deriving DecidableEq

/-- Modelled from the spec: closed `adapter_type` enum for energy monitors. -/
inductive EnergyMonitorAdapter where
  | DUMMY_SOLAR
  | HOME_ASSISTANT_API
  | OTHER
  deriving DecidableEq

/-- Modelled from the spec: closed `adapter_type` enum for miner controllers. -/
inductive MinerControllerAdapter where
  | DUMMY
  | GENERIC_SOCKET_HOME_ASSISTANT_API
  | OTHER
  deriving DecidableEq

/-- Modelled from the spec: closed `adapter_type` enum for notifiers. -/
inductive NotificationAdapter where
  | DUMMY
  | TELEGRAM
  | OTHER
  deriving DecidableEq

/-- Modelled from the spec: closed `adapter_type` enum for forecast providers. -/
inductive ForecastProviderAdapter where
  | DUMMY_SOLAR
  | HOME_ASSISTANT_API
  | OTHER
  deriving DecidableEq

/-- Modelled from the spec: the External Service configuration entity
(spec data model, and the fields `adapter_service.py` reads). -/
structure ExternalService where
  id : EntityId
  name : String
  adapter_type : ExternalServiceAdapter
  config : Option Config
  deriving DecidableEq

/-- Modelled from the spec: the EnergyMonitor configuration entity. -/
structure EnergyMonitor where
  id : EntityId
  name : String
  adapter_type : EnergyMonitorAdapter
  config : Option Config
  external_service_id : Option EntityId
  deriving DecidableEq

/-- Modelled from the spec: the MinerController configuration entity. -/
structure MinerController where
  id : EntityId
  name : String
  adapter_type : MinerControllerAdapter
  config : Option Config
  external_service_id : Option EntityId
  deriving DecidableEq

/-- Modelled from the spec: the Notifier configuration entity. -/
structure Notifier where
  id : EntityId
  name : String
  adapter_type : NotificationAdapter
  config : Option Config
  external_service_id : Option EntityId
  deriving DecidableEq

/-- Modelled from the spec: the ForecastProvider configuration entity. -/
structure ForecastProvider where
  id : EntityId
  name : String
  adapter_type : ForecastProviderAdapter
  config : Option Config
  external_service_id : Option EntityId
  deriving DecidableEq

/-- Modelled from the spec: the EnergySource context entity (fields read by
`get_energy_monitor` / `get_forecast_provider`). -/
structure EnergySource where
  id : EntityId
  name : String
  energy_monitor_id : Option EntityId
  forecast_provider_id : Option EntityId
  deriving DecidableEq

/-- Modelled from the spec: the Miner context entity (fields read by
`get_miner_controller` and the dummy controller branch). -/
structure Miner where
  id : EntityId
  name : String
  controller_id : Option EntityId
  power_consumption_max : Option Nat
  hash_rate_max : Option Nat
  deriving DecidableEq

deriving instance DecidableEq for Except

/-- A Python exception value, as far as the registry can observe it. -/
inductive PyErr where
  | valueErrorUnableToLoadService (service_id : EntityId) (entity_name : String)
  | valueErrorUnsupportedType
  | valueErrorMissingConfig
  | factoryFailure (code : Nat)
  deriving DecidableEq

/-- One structured entry of the service logger, one constructor per logging
site of `adapter_service.py` that this development embeds. -/
inductive LogEvent where
  | debugCachedService (id : EntityId)
  | errorServiceConstruct (name : String)
  | errorServiceNotFound (id : EntityId)
  | debugCachedAdapter (c : PortCat) (id : EntityId)
  | warnCachedNone (c : PortCat) (id : EntityId)
  | warnCachedWrongType (c : PortCat) (id : EntityId)
  | errorAdapterConstruct (c : PortCat) (name : String)
  | errorNoEnergyMonitorId (source_name : String)
  | errorEnergyMonitorNotFound (id : EntityId)
  | errorNoControllerId (miner_name : String)
  | errorMinerControllerNotFound (id : EntityId)
  | errorNotifiersNotConfigured
  | errorNotifierNotFound (id : EntityId)
  | warnNotifierFailed (id : EntityId)
  | errorNoForecastProviderId (source_name : String)
  | errorForecastProviderNotFound (id : EntityId)
  | infoClearAdapters
  | infoRemovedAdapter (id : EntityId)
  | warnNoAdapterRemove (id : EntityId)
  | infoClearServices
  | infoRemovedService (id : EntityId)
  | warnNoServiceRemove (id : EntityId)
  deriving DecidableEq

/-- Per-factory invocation counters (observation-only: they model the
call-counting stub factories of the spec's testable properties). -/
structure Counters where
  service : Nat
  energyMonitor : Nat
  minerController : Nat
  notifier : Nat
  forecastProvider : Nat
  deriving DecidableEq

/-- The mutable state of one `AdapterService`: the shared Instance Cache
(values are `Option RValue` because its Python type is
`Dict[EntityId, Optional[...]]`), the Service Cache, and the observation-only
log and factory counters. -/
structure St where
  instance_cache : List (EntityId × Option RValue)
  service_cache : List (EntityId × RValue)
  log : List LogEvent
  counters : Counters
  deriving DecidableEq

/-- The read-only collaborators of the service: repositories (keyed lookup of
configuration entities) and one function per adapter factory / constructor
reachable from the embedded methods, plus whether a logger is attached. -/
structure Env where
  energy_monitor_repo : EntityId → Option EnergyMonitor
  miner_controller_repo : EntityId → Option MinerController
  notifier_repo : EntityId → Option Notifier
  notifier_repo_all : List Notifier
  forecast_provider_repo : EntityId → Option ForecastProvider
  external_service_repo : EntityId → Option ExternalService
  serviceHomeAssistantFactory : Option Config → Except PyErr RValue
  dummySolarEnergyMonitorFactory : EnergySource → Option Config → Option RValue → Except PyErr RValue
  homeAssistantEnergyMonitorFactory : Option Config → Option RValue → Except PyErr RValue
  dummyMinerControllerCtor : Nat → Nat → Except PyErr RValue
  genericSocketMinerFactory : Miner → Option Config → Option RValue → Except PyErr RValue
  dummyNotifierCtor : Unit → Except PyErr RValue
  telegramNotifierFactory : Option Config → Option RValue → Except PyErr RValue
  dummySolarForecastFactory : EnergySource → Option Config → Option RValue → Except PyErr RValue
  homeAssistantForecastFactory : Option Config → Option RValue → Except PyErr RValue
  logger : Bool

/-- Lookup in a Python dict modelled as an association list. -/
def dlookup {α : Type} : List (EntityId × α) → EntityId → Option α
  | [], _ => none
  | (k1, v) :: t, k => if k1 = k then some v else dlookup t k

/-- Python `d[k] = v`: replace the binding in place if present, else append
(insertion order preserved, as in a Python dict). -/
def dset {α : Type} : List (EntityId × α) → EntityId → α → List (EntityId × α)
  | [], k, v => [(k, v)]
  | (k1, v1) :: t, k, v => if k1 = k then (k, v) :: t else (k1, v1) :: dset t k v

/-- Python `del d[k]`: drop the binding for `k`. -/
def ddel {α : Type} : List (EntityId × α) → EntityId → List (EntityId × α)
  | [], _ => []
  | (k1, v) :: t, k => if k1 = k then ddel t k else (k1, v) :: ddel t k

/-- Append a log entry, but only when a logger is attached
(every logging site is guarded by `if self.logger:`). -/
def logOn (env : Env) (st : St) (e : LogEvent) : St :=
  if env.logger then { st with log := st.log ++ [e] } else st

/-- Python truthiness of an `Optional[EntityId]` field: `None` and the empty
string are falsy; this normalises a falsy id to `none`. -/
def opt_id_truthy : Option EntityId → Option EntityId
  | none => none
  | some s => if s = "" then none else some s

def bumpService (st : St) : St :=
  { st with counters := { st.counters with service := st.counters.service + 1 } }

def bumpEnergyMonitor (st : St) : St :=
  { st with counters := { st.counters with energyMonitor := st.counters.energyMonitor + 1 } }

def bumpMinerController (st : St) : St :=
  { st with counters := { st.counters with minerController := st.counters.minerController + 1 } }

def bumpNotifier (st : St) : St :=
  { st with counters := { st.counters with notifier := st.counters.notifier + 1 } }

def bumpForecastProvider (st : St) : St :=
  { st with counters := { st.counters with forecastProvider := st.counters.forecastProvider + 1 } }

/-- Embedding of `AdapterService._initialize_external_service`.  A cache hit
is returned as-is (no falsiness or `isinstance` re-check on this cache); on a
miss, the whole construction is inside `try`, so this method never raises:
an unsupported type or a factory exception is caught, logged, and `None` is
returned with nothing cached. -/
def init_external_service (env : Env) (st : St) (es : ExternalService) :
    Option RValue × St :=
  match dlookup st.service_cache es.id with
  | some inst => (some inst, logOn env st (LogEvent.debugCachedService es.id))
  | none =>
    match es.adapter_type with
    | ExternalServiceAdapter.HOME_ASSISTANT_API =>
      let st1 := bumpService st
      match env.serviceHomeAssistantFactory es.config with
      | Except.ok inst =>
        (some inst, { st1 with service_cache := dset st1.service_cache es.id inst })
      | Except.error _ =>
        (none, logOn env st1 (LogEvent.errorServiceConstruct es.name))
    | ExternalServiceAdapter.OTHER =>
      (none, logOn env st (LogEvent.errorServiceConstruct es.name))

/-- Embedding of `AdapterService.get_external_service`. -/
def get_external_service (env : Env) (st : St) (sid : EntityId) :
    Option RValue × St :=
  match env.external_service_repo sid with
  | none => (none, logOn env st (LogEvent.errorServiceNotFound sid))
  | some es => init_external_service env st es

/-- The cached-entry block shared verbatim (up to category and message text) by
every `_initialize_*_adapter` method: log the debug line, then return the
cached value if it is truthy and satisfies the category port, and `None`
(with a warning) otherwise.  Note that a falsy or wrongly-typed entry makes
the method return `None` without falling through to reconstruction. -/
def adapter_cache_check (env : Env) (st : St) (c : PortCat) (id : EntityId)
    (cached : Option RValue) : Option RValue × St :=
  let st1 := logOn env st (LogEvent.debugCachedAdapter c id)
  match cached with
  | none => (none, logOn env st1 (LogEvent.warnCachedNone c id))
  | some v =>
    if v.cat = c then (some v, st1)
    else (none, logOn env st1 (LogEvent.warnCachedWrongType c id))

/-- The `try` block of `_initialize_energy_monitor_adapter` after factory
selection succeeded.  `es_local` models the Python local variable
`external_service`: `none` means the name is unbound (the `if
energy_monitor.external_service_id:` branch never ran and nothing else binds
it), `some ext` means it is bound to `ext`.  Evaluating the
`factory.create(..., external_service=external_service)` call reads that
local: when it is unbound, an `UnboundLocalError` is raised inside the `try`
and caught by the method's `except Exception`, so the method logs the failure
and returns `None` without invoking the factory or caching anything. -/
def em_create (env : Env) (st : St) (em : EnergyMonitor)
    (factory : Option Config → Option RValue → Except PyErr RValue)
    (es_local : Option (Option RValue)) : Except PyErr (Option RValue) × St :=
  match es_local with
  | none =>
    (Except.ok none, logOn env st (LogEvent.errorAdapterConstruct PortCat.energyMonitor em.name))
  | some ext =>
    let st1 := bumpEnergyMonitor st
    match factory em.config ext with
    | Except.ok inst =>
      (Except.ok (some inst),
        { st1 with instance_cache := dset st1.instance_cache em.id (some inst) })
    | Except.error _ =>
      (Except.ok none, logOn env st1 (LogEvent.errorAdapterConstruct PortCat.energyMonitor em.name))

/-- The `try` block of `_initialize_energy_monitor_adapter`: select the
factory for `adapter_type` (an unsupported type or a missing required config
raises a `ValueError` that the surrounding `except` catches), then build via
`em_create`.  The `if not energy_source:` guard of the dummy-solar branch
never fires because a dataclass instance is always truthy. -/
def em_try (env : Env) (st : St) (energy_source : EnergySource) (em : EnergyMonitor)
    (es_local : Option (Option RValue)) : Except PyErr (Option RValue) × St :=
  match em.adapter_type with
  | EnergyMonitorAdapter.DUMMY_SOLAR =>
    em_create env st em (fun cfg ext => env.dummySolarEnergyMonitorFactory energy_source cfg ext) es_local
  | EnergyMonitorAdapter.HOME_ASSISTANT_API =>
    match em.config with
    | none =>
      (Except.ok none, logOn env st (LogEvent.errorAdapterConstruct PortCat.energyMonitor em.name))
    | some _ =>
      em_create env st em env.homeAssistantEnergyMonitorFactory es_local
  | EnergyMonitorAdapter.OTHER =>
    (Except.ok none, logOn env st (LogEvent.errorAdapterConstruct PortCat.energyMonitor em.name))

/-- Embedding of `AdapterService._initialize_energy_monitor_adapter`.  The
`raise ValueError` for an unresolvable external service sits before the `try`
block, so it escapes the method (hence the `Except` result). -/
def init_energy_monitor_adapter (env : Env) (st : St) (energy_source : EnergySource)
    (em : EnergyMonitor) : Except PyErr (Option RValue) × St :=
  match dlookup st.instance_cache em.id with
  | some cached =>
    let r := adapter_cache_check env st PortCat.energyMonitor em.id cached
    (Except.ok r.1, r.2)
  | none =>
    match opt_id_truthy em.external_service_id with
    | some sid =>
      let r := get_external_service env st sid
      match r.1 with
      | none => (Except.error (PyErr.valueErrorUnableToLoadService sid em.name), r.2)
      | some sv => em_try env r.2 energy_source em (some (some sv))
    | none =>
      em_try env st energy_source em none

/-- Embedding of `AdapterService.get_energy_monitor`. -/
def get_energy_monitor (env : Env) (st : St) (energy_source : EnergySource) :
    Except PyErr (Option RValue) × St :=
  match opt_id_truthy energy_source.energy_monitor_id with
  | none =>
    (Except.ok none, logOn env st (LogEvent.errorNoEnergyMonitorId energy_source.name))
  | some mid =>
    match env.energy_monitor_repo mid with
    | none => (Except.ok none, logOn env st (LogEvent.errorEnergyMonitorNotFound mid))
    | some em => init_energy_monitor_adapter env st energy_source em

/-- The `try` block of `_initialize_miner_controller_adapter`.  Unlike the
energy-monitor and forecast-provider methods, the source pre-binds
`external_service: Optional[ExternalServicePort] = None` before the `if`, so
the local is always bound here and `ext` is a plain `Option RValue`. -/
def miner_try (env : Env) (st : St) (miner : Miner) (mc : MinerController)
    (ext : Option RValue) : Except PyErr (Option RValue) × St :=
  match mc.adapter_type with
  | MinerControllerAdapter.DUMMY =>
    match miner.power_consumption_max, miner.hash_rate_max with
    | some p, some h =>
      let st1 := bumpMinerController st
      match env.dummyMinerControllerCtor p h with
      | Except.ok inst =>
        (Except.ok (some inst),
          { st1 with instance_cache := dset st1.instance_cache mc.id (some inst) })
      | Except.error _ =>
        (Except.ok none, logOn env st1 (LogEvent.errorAdapterConstruct PortCat.minerControl mc.name))
    | _, _ =>
      (Except.ok none, logOn env st (LogEvent.errorAdapterConstruct PortCat.minerControl mc.name))
  | MinerControllerAdapter.GENERIC_SOCKET_HOME_ASSISTANT_API =>
    let st1 := bumpMinerController st
    match env.genericSocketMinerFactory miner mc.config ext with
    | Except.ok inst =>
      (Except.ok (some inst),
        { st1 with instance_cache := dset st1.instance_cache mc.id (some inst) })
    | Except.error _ =>
      (Except.ok none, logOn env st1 (LogEvent.errorAdapterConstruct PortCat.minerControl mc.name))
  | MinerControllerAdapter.OTHER =>
    (Except.ok none, logOn env st (LogEvent.errorAdapterConstruct PortCat.minerControl mc.name))

/-- Embedding of `AdapterService._initialize_miner_controller_adapter`. -/
def init_miner_controller_adapter (env : Env) (st : St) (miner : Miner)
    (mc : MinerController) : Except PyErr (Option RValue) × St :=
  match dlookup st.instance_cache mc.id with
  | some cached =>
    let r := adapter_cache_check env st PortCat.minerControl mc.id cached
    (Except.ok r.1, r.2)
  | none =>
    match opt_id_truthy mc.external_service_id with
    | some sid =>
      let r := get_external_service env st sid
      match r.1 with
      | none => (Except.error (PyErr.valueErrorUnableToLoadService sid mc.name), r.2)
      | some sv => miner_try env r.2 miner mc (some sv)
    | none =>
      miner_try env st miner mc none

/-- Embedding of `AdapterService.get_miner_controller`. -/
def get_miner_controller (env : Env) (st : St) (miner : Miner) :
    Except PyErr (Option RValue) × St :=
  match opt_id_truthy miner.controller_id with
  | none =>
    (Except.ok none, logOn env st (LogEvent.errorNoControllerId miner.name))
  | some cid =>
    match env.miner_controller_repo cid with
    | none => (Except.ok none, logOn env st (LogEvent.errorMinerControllerNotFound cid))
    | some mc => init_miner_controller_adapter env st miner mc

/-- The `try` block of `_initialize_notifier_adapter` (like the miner
controller, the source pre-binds `external_service = None`). -/
def notifier_try (env : Env) (st : St) (n : Notifier) (ext : Option RValue) :
    Except PyErr (Option RValue) × St :=
  match n.adapter_type with
  | NotificationAdapter.DUMMY =>
    let st1 := bumpNotifier st
    match env.dummyNotifierCtor () with
    | Except.ok inst =>
      (Except.ok (some inst),
        { st1 with instance_cache := dset st1.instance_cache n.id (some inst) })
    | Except.error _ =>
      (Except.ok none, logOn env st1 (LogEvent.errorAdapterConstruct PortCat.notification n.name))
  | NotificationAdapter.TELEGRAM =>
    let st1 := bumpNotifier st
    match env.telegramNotifierFactory n.config ext with
    | Except.ok inst =>
      (Except.ok (some inst),
        { st1 with instance_cache := dset st1.instance_cache n.id (some inst) })
    | Except.error _ =>
      (Except.ok none, logOn env st1 (LogEvent.errorAdapterConstruct PortCat.notification n.name))
  | NotificationAdapter.OTHER =>
    (Except.ok none, logOn env st (LogEvent.errorAdapterConstruct PortCat.notification n.name))

/-- Embedding of `AdapterService._initialize_notifier_adapter`. -/
def init_notifier_adapter (env : Env) (st : St) (n : Notifier) :
    Except PyErr (Option RValue) × St :=
  match dlookup st.instance_cache n.id with
  | some cached =>
    let r := adapter_cache_check env st PortCat.notification n.id cached
    (Except.ok r.1, r.2)
  | none =>
    match opt_id_truthy n.external_service_id with
    | some sid =>
      let r := get_external_service env st sid
      match r.1 with
      | none => (Except.error (PyErr.valueErrorUnableToLoadService sid n.name), r.2)
      | some sv => notifier_try env r.2 n (some sv)
    | none =>
      notifier_try env st n none

/-- Embedding of `AdapterService.get_notifier`. -/
def get_notifier (env : Env) (st : St) (nid : EntityId) :
    Except PyErr (Option RValue) × St :=
  match env.notifier_repo nid with
  | none => (Except.ok none, logOn env st (LogEvent.errorNotifierNotFound nid))
  | some n => init_notifier_adapter env st n

/-- Embedding of `AdapterService.get_notifiers`: per id, a repo miss logs and
continues, a `None` from the initializer logs a warning and continues, a
success is collected — but an exception raised by the initializer (the
unresolvable-external-service `ValueError`) escapes the whole loop. -/
def get_notifiers (env : Env) (st : St) : List EntityId → Except PyErr (List RValue) × St
  | [] => (Except.ok [], st)
  | nid :: rest =>
    match env.notifier_repo nid with
    | none =>
      get_notifiers env (logOn env st (LogEvent.errorNotifierNotFound nid)) rest
    | some n =>
      match init_notifier_adapter env st n with
      | (Except.error e, st1) => (Except.error e, st1)
      | (Except.ok (some inst), st1) =>
        match get_notifiers env st1 rest with
        | (Except.ok tail_list, st2) => (Except.ok (inst :: tail_list), st2)
        | (Except.error e, st2) => (Except.error e, st2)
      | (Except.ok none, st1) =>
        get_notifiers env (logOn env st1 (LogEvent.warnNotifierFailed n.id)) rest

/-- The loop body of `get_all_notifiers` (same collection discipline as
`get_notifiers`, but over already-fetched entities with no per-id repo
lookup). -/
def all_notifiers_loop (env : Env) (st : St) : List Notifier → Except PyErr (List RValue) × St
  | [] => (Except.ok [], st)
  | n :: rest =>
    match init_notifier_adapter env st n with
    | (Except.error e, st1) => (Except.error e, st1)
    | (Except.ok (some inst), st1) =>
      match all_notifiers_loop env st1 rest with
      | (Except.ok tail_list, st2) => (Except.ok (inst :: tail_list), st2)
      | (Except.error e, st2) => (Except.error e, st2)
    | (Except.ok none, st1) =>
      all_notifiers_loop env (logOn env st1 (LogEvent.warnNotifierFailed n.id)) rest

/-- Embedding of `AdapterService.get_all_notifiers`. -/
def get_all_notifiers (env : Env) (st : St) : Except PyErr (List RValue) × St :=
  match env.notifier_repo_all with
  | [] => (Except.ok [], logOn env st LogEvent.errorNotifiersNotConfigured)
  | n :: rest => all_notifiers_loop env st (n :: rest)

/-- No notifier reachable from `ids` carries a truthy `external_service_id` —
the condition under which `_initialize_notifier_adapter` can never reach its
pre-`try` `raise`, so a batch call can never see an exception escape. -/
def no_service_refs (env : Env) (ids : List EntityId) : Bool :=
  ids.all (fun nid =>
    match env.notifier_repo nid with
    | some n => (opt_id_truthy n.external_service_id).isNone
    | none => true)

/-- The `try` block of `_initialize_forecast_provider_adapter` after factory
selection; `es_local` models the same unbound-unless-assigned Python local as
in `em_create` (the forecast-provider method also lacks the `= None`
pre-binding). -/
def fp_create (env : Env) (st : St) (fp : ForecastProvider)
    (factory : Option Config → Option RValue → Except PyErr RValue)
    (es_local : Option (Option RValue)) : Except PyErr (Option RValue) × St :=
  match es_local with
  | none =>
    (Except.ok none, logOn env st (LogEvent.errorAdapterConstruct PortCat.forecastProvider fp.name))
  | some ext =>
    let st1 := bumpForecastProvider st
    match factory fp.config ext with
    | Except.ok inst =>
      (Except.ok (some inst),
        { st1 with instance_cache := dset st1.instance_cache fp.id (some inst) })
    | Except.error _ =>
      (Except.ok none, logOn env st1 (LogEvent.errorAdapterConstruct PortCat.forecastProvider fp.name))

/-- The `try` block of `_initialize_forecast_provider_adapter`. -/
def fp_try (env : Env) (st : St) (energy_source : EnergySource) (fp : ForecastProvider)
    (es_local : Option (Option RValue)) : Except PyErr (Option RValue) × St :=
  match fp.adapter_type with
  | ForecastProviderAdapter.DUMMY_SOLAR =>
    fp_create env st fp (fun cfg ext => env.dummySolarForecastFactory energy_source cfg ext) es_local
  | ForecastProviderAdapter.HOME_ASSISTANT_API =>
    match fp.config with
    | none =>
      (Except.ok none, logOn env st (LogEvent.errorAdapterConstruct PortCat.forecastProvider fp.name))
    | some _ =>
      fp_create env st fp env.homeAssistantForecastFactory es_local
  | ForecastProviderAdapter.OTHER =>
    (Except.ok none, logOn env st (LogEvent.errorAdapterConstruct PortCat.forecastProvider fp.name))

/-- Embedding of `AdapterService._initialize_forecast_provider_adapter`. -/
def init_forecast_provider_adapter (env : Env) (st : St) (energy_source : EnergySource)
    (fp : ForecastProvider) : Except PyErr (Option RValue) × St :=
  match dlookup st.instance_cache fp.id with
  | some cached =>
    let r := adapter_cache_check env st PortCat.forecastProvider fp.id cached
    (Except.ok r.1, r.2)
  | none =>
    match opt_id_truthy fp.external_service_id with
    | some sid =>
      let r := get_external_service env st sid
      match r.1 with
      | none => (Except.error (PyErr.valueErrorUnableToLoadService sid fp.name), r.2)
      | some sv => fp_try env r.2 energy_source fp (some (some sv))
    | none =>
      fp_try env st energy_source fp none

/-- Embedding of `AdapterService.get_forecast_provider`. -/
def get_forecast_provider (env : Env) (st : St) (energy_source : EnergySource) :
    Except PyErr (Option RValue) × St :=
  match opt_id_truthy energy_source.forecast_provider_id with
  | none =>
    (Except.ok none, logOn env st (LogEvent.errorNoForecastProviderId energy_source.name))
  | some fid =>
    match env.forecast_provider_repo fid with
    | none => (Except.ok none, logOn env st (LogEvent.errorForecastProviderNotFound fid))
    | some fp => init_forecast_provider_adapter env st energy_source fp

/-- Embedding of `AdapterService.clear_all_adapters`. -/
def clear_all_adapters (env : Env) (st : St) : St :=
  let st1 := logOn env st LogEvent.infoClearAdapters
  { st1 with instance_cache := [] }

/-- Embedding of `AdapterService.remove_adapter`. -/
def remove_adapter (env : Env) (st : St) (entity_id : EntityId) : St :=
  match dlookup st.instance_cache entity_id with
  | some _ =>
    logOn env { st with instance_cache := ddel st.instance_cache entity_id }
      (LogEvent.infoRemovedAdapter entity_id)
  | none => logOn env st (LogEvent.warnNoAdapterRemove entity_id)

/-- Embedding of `AdapterService.clear_all_services`. -/
def clear_all_services (env : Env) (st : St) : St :=
  let st1 := logOn env st LogEvent.infoClearServices
  { st1 with service_cache := [] }

/-- Embedding of `AdapterService.remove_service`. -/
def remove_service (env : Env) (st : St) (external_service_id : EntityId) : St :=
  match dlookup st.service_cache external_service_id with
  | some _ =>
    logOn env { st with service_cache := ddel st.service_cache external_service_id }
      (LogEvent.infoRemovedService external_service_id)
  | none => logOn env st (LogEvent.warnNoServiceRemove external_service_id)

/-! Concrete fixtures used by the evaluation theorems and witnesses. -/

/-- A fresh service state: both caches empty, no log, all counters zero. -/
def stEmpty : St :=
  { instance_cache := [], service_cache := [], log := [], counters := ⟨0, 0, 0, 0, 0⟩ }

/-- A base environment: every repository is empty, every factory raises, and a
logger is attached.  Concrete scenarios override the fields they need. -/
def envBase : Env :=
  { energy_monitor_repo := fun _ => none
    miner_controller_repo := fun _ => none
    notifier_repo := fun _ => none
    notifier_repo_all := []
    forecast_provider_repo := fun _ => none
    external_service_repo := fun _ => none
    serviceHomeAssistantFactory := fun _ => Except.error (PyErr.factoryFailure 0)
    dummySolarEnergyMonitorFactory := fun _ _ _ => Except.error (PyErr.factoryFailure 0)
    homeAssistantEnergyMonitorFactory := fun _ _ => Except.error (PyErr.factoryFailure 0)
    dummyMinerControllerCtor := fun _ _ => Except.error (PyErr.factoryFailure 0)
    genericSocketMinerFactory := fun _ _ _ => Except.error (PyErr.factoryFailure 0)
    dummyNotifierCtor := fun _ => Except.error (PyErr.factoryFailure 0)
    telegramNotifierFactory := fun _ _ => Except.error (PyErr.factoryFailure 0)
    dummySolarForecastFactory := fun _ _ _ => Except.error (PyErr.factoryFailure 0)
    homeAssistantForecastFactory := fun _ _ => Except.error (PyErr.factoryFailure 0)
    logger := true }

def idA : EntityId := "a"

def idB : EntityId := "b"

/-- An EnergyMonitor entity with no external-service dependency. -/
def emM1 : EnergyMonitor :=
  { id := "m1", name := "EM1", adapter_type := EnergyMonitorAdapter.DUMMY_SOLAR,
    config := none, external_service_id := none }

/-- An EnergySource referencing `emM1`. -/
def srcS1 : EnergySource :=
  { id := "s1", name := "S1", energy_monitor_id := some "m1", forecast_provider_id := none }

/-- A runtime object that satisfies `MinerControlPort`, not `EnergyMonitorPort`. -/
def rvWrongCat : RValue := { cat := PortCat.minerControl, tag := 7 }

def envC1 : Env :=
  { envBase with energy_monitor_repo := fun k => if k = emM1.id then some emM1 else none }

def stC1 : St := { stEmpty with instance_cache := [(emM1.id, some rvWrongCat)] }

def idES1 : EntityId := "es1"

def idM1 : EntityId := "m1"

def idFP1 : EntityId := "fp1"

def idM2 : EntityId := "m2"

def idN1 : EntityId := "n1"

def idN2 : EntityId := "n2"

def idN3 : EntityId := "n3"

/-- An EnergyMonitor entity referencing the external service `idES1`. -/
def emM2 : EnergyMonitor :=
  { id := idM2, name := "EM2", adapter_type := EnergyMonitorAdapter.HOME_ASSISTANT_API,
    config := some 1, external_service_id := some idES1 }

/-- An EnergySource referencing `emM2`. -/
def srcS2 : EnergySource :=
  { id := "s2", name := "S2", energy_monitor_id := some idM2, forecast_provider_id := none }

/-- Environment for the unresolved-dependency scenario: the energy monitor
exists, the external service it references does not. -/
def envC2 : Env :=
  { envBase with energy_monitor_repo := fun k => if k = emM2.id then some emM2 else none }

/-- A runtime object satisfying `NotificationPort`. -/
def rvNT1 : RValue := { cat := PortCat.notification, tag := 11 }

/-- A second, distinct runtime object satisfying `NotificationPort`. -/
def rvNT3 : RValue := { cat := PortCat.notification, tag := 13 }

/-- A dummy-type notifier with no external service. -/
def nD1 : Notifier :=
  { id := idN1, name := "N1", adapter_type := NotificationAdapter.DUMMY,
    config := none, external_service_id := none }

/-- A notifier whose stored `adapter_type` is unsupported. -/
def nU2 : Notifier :=
  { id := idN2, name := "N2", adapter_type := NotificationAdapter.OTHER,
    config := none, external_service_id := none }

/-- A telegram-type notifier with no external service. -/
def nT3 : Notifier :=
  { id := idN3, name := "N3", adapter_type := NotificationAdapter.TELEGRAM,
    config := some 3, external_service_id := none }

/-- A notifier referencing the (unresolvable) external service `idES1`. -/
def nX1 : Notifier :=
  { id := idN1, name := "NX", adapter_type := NotificationAdapter.DUMMY,
    config := none, external_service_id := some idES1 }

/-- Environment for the notifier scenarios: three notifiers, a working dummy
constructor and a working telegram factory. -/
def envC5 : Env :=
  { envBase with
    notifier_repo := fun k =>
      if k = idN1 then some nD1 else if k = idN2 then some nU2 else
      if k = idN3 then some nT3 else none
    dummyNotifierCtor := fun _ => Except.ok rvNT1
    telegramNotifierFactory := fun _ _ => Except.ok rvNT3 }

/-- Environment in which a notifier references an external service that the
repository cannot resolve. -/
def envC5x : Env :=
  { envBase with notifier_repo := fun k => if k = idN1 then some nX1 else none }

/-- A runtime object satisfying `ExternalServicePort`. -/
def rvES1 : RValue := { cat := PortCat.externalService, tag := 4 }

/-- An External Service entity of the supported home-assistant type. -/
def esE1 : ExternalService :=
  { id := idES1, name := "ES1", adapter_type := ExternalServiceAdapter.HOME_ASSISTANT_API,
    config := some 2 }

/-- Variant of the unresolved-dependency scenario in which the external
service entity `esE1` exists but its construction fails (the base factory
raises), so `get_external_service` still resolves to `None`. -/
def envC2b : Env :=
  { envC2 with external_service_repo := fun k => if k = idES1 then some esE1 else none }

/-- Environment where external service `idES1` exists and its factory works. -/
def envC6 : Env :=
  { envBase with
    external_service_repo := fun k => if k = idES1 then some esE1 else none
    serviceHomeAssistantFactory := fun _ => Except.ok rvES1 }

/-- A Service Cache already holding the constructed `rvES1` under `idES1`. -/
def stC6 : St := { stEmpty with service_cache := [(idES1, rvES1)] }

/-- A telegram notifier whose factory fails (for the construction-failure case). -/
def envC7 : Env :=
  { envBase with notifier_repo := fun k =>
      if k = idN1 then some nU2 else if k = idN2 then some nT3 else none }

/-- A cached value that does not satisfy `ExternalServicePort` (it satisfies
`NotificationPort`), sitting in the Service Cache under `idES1`. -/
def rvBadService : RValue := { cat := PortCat.notification, tag := 9 }

/-- Service Cache corrupted with a non-ExternalServicePort value. -/
def stC9 : St := { stEmpty with service_cache := [(idES1, rvBadService)] }

/-- Environment where external service `idES1` exists (for the cache-read
re-check question). -/
def envC9 : Env :=
  { envBase with external_service_repo := fun k => if k = idES1 then some esE1 else none }

/-- A ForecastProvider entity with no external-service dependency. -/
def fpF1 : ForecastProvider :=
  { id := "fp1", name := "FP1", adapter_type := ForecastProviderAdapter.DUMMY_SOLAR,
    config := none, external_service_id := none }

/-- A runtime object satisfying `MinerControlPort`. -/
def rvMC1 : RValue := { cat := PortCat.minerControl, tag := 21 }

/-- A generic-socket miner controller with no external service. -/
def mcC1 : MinerController :=
  { id := "mc1", name := "MC1",
    adapter_type := MinerControllerAdapter.GENERIC_SOCKET_HOME_ASSISTANT_API,
    config := none, external_service_id := none }

/-- A Miner with limits set, referencing `mcC1`. -/
def minerX : Miner :=
  { id := "mn1", name := "MN1", controller_id := some "mc1",
    power_consumption_max := some 100, hash_rate_max := some 50 }

/-- Environment for the unbound-local claim: monitor and forecast provider
resolvable from their repositories, and a generic-socket miner factory that
succeeds, so only the energy-monitor/forecast-provider paths fail. -/
def envC4 : Env :=
  { envBase with
    genericSocketMinerFactory := fun _ _ _ => Except.ok rvMC1
    energy_monitor_repo := fun k => if k = emM1.id then some emM1 else none
    forecast_provider_repo := fun k => if k = fpF1.id then some fpF1 else none }

/-- An EnergySource referencing both `emM1` and `fpF1`. -/
def srcS3 : EnergySource :=
  { id := "s3", name := "S3", energy_monitor_id := some idM1,
    forecast_provider_id := some idFP1 }

/-- Environment with a working dummy-notifier constructor (memoization law). -/
def envC3 : Env :=
  { envBase with
    notifier_repo := fun k => if k = idN1 then some nD1 else none
    dummyNotifierCtor := fun _ => Except.ok rvNT1 }

/-- Environment plus a corrupt Instance Cache entry for notifier `idN1`. -/
def stC8 : St := { stEmpty with instance_cache := [(idN1, some rvWrongCat)] }

/-! General lemmas about the dictionary operations and the state plumbing. -/

theorem dlookup_dset_self {α : Type} (l : List (EntityId × α)) (k : EntityId) (v : α) :
    dlookup (dset l k v) k = some v := by
  induction l with
  | nil => simp [dset, dlookup]
  | cons p t ih =>
    obtain ⟨k1, v1⟩ := p
    by_cases h : k1 = k
    · simp [dset, h, dlookup]
    · simp [dset, h, dlookup, ih]

theorem dlookup_dset_ne {α : Type} (l : List (EntityId × α)) (k k2 : EntityId) (v : α)
    (h : k2 ≠ k) : dlookup (dset l k v) k2 = dlookup l k2 := by
  induction l with
  | nil => simp [dset, dlookup, Ne.symm h]
  | cons p t ih =>
    obtain ⟨k1, v1⟩ := p
    by_cases h1 : k1 = k
    · simp [dset, h1, dlookup, Ne.symm h]
    · simp [dset, h1, dlookup, ih]

theorem dlookup_ddel_self {α : Type} (l : List (EntityId × α)) (k : EntityId) :
    dlookup (ddel l k) k = none := by
  induction l with
  | nil => rfl
  | cons p t ih =>
    obtain ⟨k1, v1⟩ := p
    by_cases h : k1 = k
    · simp [ddel, h, ih]
    · simp [ddel, h, dlookup, ih]

theorem dlookup_ddel_ne {α : Type} (l : List (EntityId × α)) (k k2 : EntityId)
    (h : k2 ≠ k) : dlookup (ddel l k) k2 = dlookup l k2 := by
  induction l with
  | nil => rfl
  | cons p t ih =>
    obtain ⟨k1, v1⟩ := p
    by_cases h1 : k1 = k
    · simp [ddel, h1, dlookup, Ne.symm h, ih]
    · simp [ddel, h1, dlookup, ih]

@[simp] theorem logOn_instance_cache (env : Env) (st : St) (e : LogEvent) :
    (logOn env st e).instance_cache = st.instance_cache := by
  unfold logOn; split <;> rfl

@[simp] theorem logOn_service_cache (env : Env) (st : St) (e : LogEvent) :
    (logOn env st e).service_cache = st.service_cache := by
  unfold logOn; split <;> rfl

@[simp] theorem logOn_counters (env : Env) (st : St) (e : LogEvent) :
    (logOn env st e).counters = st.counters := by
  unfold logOn; split <;> rfl

@[simp] theorem bumpService_instance_cache (st : St) :
    (bumpService st).instance_cache = st.instance_cache := rfl

@[simp] theorem bumpService_service_cache (st : St) :
    (bumpService st).service_cache = st.service_cache := rfl

/-- `get_external_service` only touches the Service Cache, the log, and the
service-factory counter: the Instance Cache and every adapter-factory counter
are preserved. -/
theorem ges_preserves (env : Env) (st : St) (sid : EntityId) :
    (get_external_service env st sid).2.instance_cache = st.instance_cache
    ∧ (get_external_service env st sid).2.counters.energyMonitor = st.counters.energyMonitor
    ∧ (get_external_service env st sid).2.counters.minerController = st.counters.minerController
    ∧ (get_external_service env st sid).2.counters.notifier = st.counters.notifier
    ∧ (get_external_service env st sid).2.counters.forecastProvider = st.counters.forecastProvider := by
  unfold get_external_service init_external_service bumpService
  split
  · simp
  · split
    · simp
    · split
      · split <;> simp
      · simp

/-- Evaluation of the shared cached-entry block on a `None` entry. -/
theorem acc_none (env : Env) (st : St) (c : PortCat) (id : EntityId) :
    adapter_cache_check env st c id none =
      (none, logOn env (logOn env st (LogEvent.debugCachedAdapter c id))
        (LogEvent.warnCachedNone c id)) := rfl

/-- Evaluation of the shared cached-entry block on an entry of the wrong
category: warning, `None`, no fall-through. -/
theorem acc_wrong (env : Env) (st : St) (c : PortCat) (id : EntityId) (v : RValue)
    (h : v.cat ≠ c) :
    adapter_cache_check env st c id (some v) =
      (none, logOn env (logOn env st (LogEvent.debugCachedAdapter c id))
        (LogEvent.warnCachedWrongType c id)) := by
  simp [adapter_cache_check, h]

/-- Evaluation of the shared cached-entry block on a valid entry. -/
theorem acc_good (env : Env) (st : St) (c : PortCat) (id : EntityId) (v : RValue)
    (h : v.cat = c) :
    adapter_cache_check env st c id (some v) =
      (some v, logOn env st (LogEvent.debugCachedAdapter c id)) := by
  simp [adapter_cache_check, h]

/-- The notifier initializer on a cache hit is exactly the shared
cached-entry block. -/
theorem init_notifier_hit (env : Env) (st : St) (n : Notifier) (cached : Option RValue)
    (h0 : dlookup st.instance_cache n.id = some cached) :
    init_notifier_adapter env st n =
      (Except.ok (adapter_cache_check env st PortCat.notification n.id cached).1,
        (adapter_cache_check env st PortCat.notification n.id cached).2) := by
  unfold init_notifier_adapter
  rw [h0]

/-- Inversion: a successful run of the notifier `try` block returned exactly
the instance it cached and invoked exactly one notifier factory. -/
theorem notifier_try_ok (env : Env) (st : St) (n : Notifier) (ext : Option RValue)
    (i : RValue) (st1 : St)
    (h : notifier_try env st n ext = (Except.ok (some i), st1)) :
    st1.instance_cache = dset st.instance_cache n.id (some i)
    ∧ st1.counters.notifier = st.counters.notifier + 1 := by
  unfold notifier_try at h
  rcases ht : n.adapter_type with _ | _ | _ <;> rw [ht] at h
  · rcases hf : env.dummyNotifierCtor () with a | a <;> rw [hf] at h <;>
      simp_all [bumpNotifier]
    obtain ⟨h1, h2⟩ := h
    subst h1; subst h2
    simp
  · rcases hf : env.telegramNotifierFactory n.config ext with a | a <;> rw [hf] at h <;>
      simp_all [bumpNotifier]
    obtain ⟨h1, h2⟩ := h
    subst h1; subst h2
    simp
  · simp_all

/-- Evaluation: dummy-notifier miss path with a working constructor. -/
theorem init_notifier_miss_dummy_ok (env : Env) (st : St) (n : Notifier) (i : RValue)
    (h0 : dlookup st.instance_cache n.id = none)
    (h1 : n.external_service_id = none)
    (h2 : n.adapter_type = NotificationAdapter.DUMMY)
    (h3 : env.dummyNotifierCtor () = Except.ok i) :
    init_notifier_adapter env st n =
      (Except.ok (some i),
        { bumpNotifier st with instance_cache := dset st.instance_cache n.id (some i) }) := by
  unfold init_notifier_adapter
  rw [h0, h1]
  simp [opt_id_truthy, notifier_try, h2, h3, bumpNotifier]

/-- Evaluation: telegram-notifier miss path with a working factory. -/
theorem init_notifier_miss_telegram_ok (env : Env) (st : St) (n : Notifier) (i : RValue)
    (h0 : dlookup st.instance_cache n.id = none)
    (h1 : n.external_service_id = none)
    (h2 : n.adapter_type = NotificationAdapter.TELEGRAM)
    (h3 : env.telegramNotifierFactory n.config none = Except.ok i) :
    init_notifier_adapter env st n =
      (Except.ok (some i),
        { bumpNotifier st with instance_cache := dset st.instance_cache n.id (some i) }) := by
  unfold init_notifier_adapter
  rw [h0, h1]
  simp [opt_id_truthy, notifier_try, h2, h3, bumpNotifier]

/-- Evaluation: telegram-notifier miss path when the factory raises. -/
theorem init_notifier_miss_telegram_err (env : Env) (st : St) (n : Notifier) (e : PyErr)
    (h0 : dlookup st.instance_cache n.id = none)
    (h1 : n.external_service_id = none)
    (h2 : n.adapter_type = NotificationAdapter.TELEGRAM)
    (h3 : env.telegramNotifierFactory n.config none = Except.error e) :
    init_notifier_adapter env st n =
      (Except.ok none,
        logOn env (bumpNotifier st)
          (LogEvent.errorAdapterConstruct PortCat.notification n.name)) := by
  unfold init_notifier_adapter
  rw [h0, h1]
  simp [opt_id_truthy, notifier_try, h2, h3]

/-- Evaluation: miss path on an unsupported notifier `adapter_type`. -/
theorem init_notifier_miss_unsupported (env : Env) (st : St) (n : Notifier)
    (h0 : dlookup st.instance_cache n.id = none)
    (h1 : n.external_service_id = none)
    (h2 : n.adapter_type = NotificationAdapter.OTHER) :
    init_notifier_adapter env st n =
      (Except.ok none,
        logOn env st (LogEvent.errorAdapterConstruct PortCat.notification n.name)) := by
  unfold init_notifier_adapter
  rw [h0, h1]
  simp [opt_id_truthy, notifier_try, h2]

/-- Whenever `_initialize_external_service` returns `None` (unsupported type
or factory failure — the only `None` paths), it has logged the failed
service's name. -/
theorem init_external_service_none_log (env : Env) (st : St) (es : ExternalService)
    (hl : env.logger = true)
    (hres : (init_external_service env st es).1 = none) :
    LogEvent.errorServiceConstruct es.name ∈ (init_external_service env st es).2.log := by
  rcases hc : dlookup st.service_cache es.id with _ | inst
  · rcases ha : es.adapter_type with _ | _
    · rcases hf : env.serviceHomeAssistantFactory es.config with e | w
      · simp only [init_external_service, hc, ha, hf]
        simp [logOn, hl, bumpService]
      · simp only [init_external_service, hc, ha, hf] at hres
        simp at hres
    · simp only [init_external_service, hc, ha]
      simp [logOn, hl]
  · simp only [init_external_service, hc] at hres
    simp at hres

/-- A notifier whose `external_service_id` is falsy can never make its
initializer raise: the pre-`try` `raise` is unreachable and everything else
is caught, so the result is always an `ok`. -/
theorem init_notifier_no_raise (env : Env) (st : St) (n : Notifier)
    (hes : opt_id_truthy n.external_service_id = none) :
    ∃ r st1, init_notifier_adapter env st n = (Except.ok r, st1) := by
  rcases hres : init_notifier_adapter env st n with ⟨r, st1⟩
  rcases r with e | v
  · exfalso
    rcases hc : dlookup st.instance_cache n.id with _ | cached
    · simp only [init_notifier_adapter, hc, hes, notifier_try] at hres
      rcases ht : n.adapter_type with _ | _ | _
      · rcases hf : env.dummyNotifierCtor () with x | x <;> simp [ht, hf] at hres
      · rcases hf : env.telegramNotifierFactory n.config none with x | x <;>
          simp [ht, hf] at hres
      · simp [ht] at hres
    · simp only [init_notifier_adapter, hc] at hres
      simp at hres
  · exact ⟨v, st1, rfl⟩

/-- C1: evaluation of the code at the failing input.  With the Instance Cache
holding, under the energy monitor's id, a value that does not satisfy
`EnergyMonitorPort`, `get_energy_monitor` does not fall through to
reconstruction: it logs the two messages (the second of which announces
"Reinitializing adapter."), returns `None`, invokes no factory, and leaves
the corrupt cache entry in place. -/
theorem wrong_type_cache_hit_returns_none :
    (get_energy_monitor envC1 stC1 srcS1).1 = Except.ok none
    ∧ (get_energy_monitor envC1 stC1 srcS1).2.instance_cache = stC1.instance_cache
    ∧ (get_energy_monitor envC1 stC1 srcS1).2.counters = stC1.counters
    ∧ (get_energy_monitor envC1 stC1 srcS1).2.log =
        stC1.log ++ [LogEvent.debugCachedAdapter PortCat.energyMonitor emM1.id,
          LogEvent.warnCachedWrongType PortCat.energyMonitor emM1.id] := by
  decide

/-- C10: `remove_adapter` deletes exactly the entry for the given id from the
Instance Cache when present and is a warning-logging no-op otherwise;
`clear_all_adapters` empties the Instance Cache; `remove_service` and
`clear_all_services` apply the same two behaviours to the Service Cache; and
in all four operations the other cache is untouched and every factory counter
is unchanged, so no reconstruction is triggered. -/
theorem cache_invalidation_frame (env : Env) (st : St) (id sid : EntityId) :
    dlookup (remove_adapter env st id).instance_cache id = none
    ∧ (∀ k, k ≠ id →
        dlookup (remove_adapter env st id).instance_cache k = dlookup st.instance_cache k)
    ∧ (remove_adapter env st id).service_cache = st.service_cache
    ∧ (remove_adapter env st id).counters = st.counters
    ∧ (dlookup st.instance_cache id = none →
        (remove_adapter env st id).instance_cache = st.instance_cache)
    ∧ (env.logger = true → dlookup st.instance_cache id = none →
        (remove_adapter env st id).log = st.log ++ [LogEvent.warnNoAdapterRemove id])
    ∧ (clear_all_adapters env st).instance_cache = []
    ∧ (clear_all_adapters env st).service_cache = st.service_cache
    ∧ (clear_all_adapters env st).counters = st.counters
    ∧ dlookup (remove_service env st sid).service_cache sid = none
    ∧ (∀ k, k ≠ sid →
        dlookup (remove_service env st sid).service_cache k = dlookup st.service_cache k)
    ∧ (remove_service env st sid).instance_cache = st.instance_cache
    ∧ (remove_service env st sid).counters = st.counters
    ∧ (dlookup st.service_cache sid = none →
        (remove_service env st sid).service_cache = st.service_cache)
    ∧ (env.logger = true → dlookup st.service_cache sid = none →
        (remove_service env st sid).log = st.log ++ [LogEvent.warnNoServiceRemove sid])
    ∧ (clear_all_services env st).service_cache = []
    ∧ (clear_all_services env st).instance_cache = st.instance_cache
    ∧ (clear_all_services env st).counters = st.counters := by
  refine ⟨?_, ?_, ?_, ?_, ?_, ?_, ?_, ?_, ?_, ?_, ?_, ?_, ?_, ?_, ?_, ?_, ?_, ?_⟩
  · unfold remove_adapter; split <;> simp_all [dlookup_ddel_self]
  · intro k hk
    unfold remove_adapter; split <;> simp [dlookup_ddel_ne st.instance_cache id k hk]
  · unfold remove_adapter; split <;> simp
  · unfold remove_adapter; split <;> simp
  · intro h; unfold remove_adapter; rw [h]; simp
  · intro hl h; unfold remove_adapter; rw [h]; simp [logOn, hl]
  · rfl
  · simp [clear_all_adapters]
  · simp [clear_all_adapters]
  · unfold remove_service; split <;> simp_all [dlookup_ddel_self]
  · intro k hk
    unfold remove_service; split <;> simp [dlookup_ddel_ne st.service_cache sid k hk]
  · unfold remove_service; split <;> simp
  · unfold remove_service; split <;> simp
  · intro h; unfold remove_service; rw [h]; simp
  · intro hl h; unfold remove_service; rw [h]; simp [logOn, hl]
  · rfl
  · simp [clear_all_services]
  · simp [clear_all_services]

/-- Witness for `cache_invalidation_frame` at a concrete input (empty caches,
logger attached): the entry for `idA` is absent afterwards, and the
absent-entry call is a no-op that logs the warning. -/
theorem cache_invalidation_frame_witness :
    dlookup (remove_adapter envBase stEmpty idA).instance_cache idA = none
    ∧ (remove_adapter envBase stEmpty idA).instance_cache = stEmpty.instance_cache
    ∧ (remove_adapter envBase stEmpty idA).log =
        stEmpty.log ++ [LogEvent.warnNoAdapterRemove idA] :=
  ⟨(cache_invalidation_frame envBase stEmpty idA idB).1,
   (cache_invalidation_frame envBase stEmpty idA idB).2.2.2.2.1 rfl,
   (cache_invalidation_frame envBase stEmpty idA idB).2.2.2.2.2.1 rfl rfl⟩

/-- C2 counterexample: with energy monitor `emM2` referencing the external
service `idES1` that the repository cannot resolve, `get_energy_monitor` does
not return a failure result — the `ValueError` raised before the `try` block
escapes the getter. -/
theorem unresolved_service_escape_counterexample :
    (get_energy_monitor envC2 stEmpty srcS2).1 =
      Except.error (PyErr.valueErrorUnableToLoadService idES1 emM2.name) := by
  decide

/-- C2 (amended): when the referenced configuration entity has a truthy
`external_service_id` that `get_external_service` cannot resolve, the getter
aborts construction for this call and caches no instance, and
`get_external_service` logs its own diagnostic for the failure — the missing
dependency's identifier when the service entity is absent from its
repository, or the service's name when its construction failed; but instead
of returning a failure result, the initializer raises a `ValueError` carrying
the referencing entity's name and the missing dependency's identifier, and
that exception propagates out of `get_energy_monitor`. -/
theorem unresolved_service_aborts_with_raise (env : Env) (st : St) (es : EnergySource)
    (em : EnergyMonitor) (mid sid : EntityId)
    (hmid : opt_id_truthy es.energy_monitor_id = some mid)
    (hrepo : env.energy_monitor_repo mid = some em)
    (hmiss : dlookup st.instance_cache em.id = none)
    (hsid : opt_id_truthy em.external_service_id = some sid)
    (hfail : (get_external_service env st sid).1 = none) :
    (get_energy_monitor env st es).1 =
      Except.error (PyErr.valueErrorUnableToLoadService sid em.name)
    ∧ (get_energy_monitor env st es).2.instance_cache = st.instance_cache
    ∧ (get_energy_monitor env st es).2.counters.energyMonitor
        = st.counters.energyMonitor
    ∧ (env.external_service_repo sid = none → env.logger = true →
        LogEvent.errorServiceNotFound sid ∈ (get_energy_monitor env st es).2.log)
    ∧ (∀ es2, env.external_service_repo sid = some es2 → env.logger = true →
        LogEvent.errorServiceConstruct es2.name
          ∈ (get_energy_monitor env st es).2.log) := by
  obtain ⟨hic, hcem, _, _, _⟩ := ges_preserves env st sid
  rcases hges : get_external_service env st sid with ⟨res, st1⟩
  rw [hges] at hfail hic hcem
  simp at hfail
  subst hfail
  have hmain : get_energy_monitor env st es =
      (Except.error (PyErr.valueErrorUnableToLoadService sid em.name), st1) := by
    simp only [get_energy_monitor, hmid]
    simp only [hrepo]
    simp only [init_energy_monitor_adapter, hmiss, hsid, hges]
  refine ⟨by rw [hmain], by rw [hmain]; exact hic, by rw [hmain]; exact hcem, ?_, ?_⟩
  · intro hrn hl
    have hserv : get_external_service env st sid =
        (none, logOn env st (LogEvent.errorServiceNotFound sid)) := by
      simp only [get_external_service, hrn]
    rw [hges] at hserv
    have hst1 : st1 = logOn env st (LogEvent.errorServiceNotFound sid) := by
      simpa using congrArg Prod.snd hserv
    rw [hmain]
    show LogEvent.errorServiceNotFound sid ∈ st1.log
    rw [hst1]
    simp [logOn, hl]
  · intro es2 hre hl
    have hinit : init_external_service env st es2 = (none, st1) := by
      have hsv : get_external_service env st sid = init_external_service env st es2 := by
        simp only [get_external_service, hre]
      rw [hsv] at hges
      exact hges
    have hmem := init_external_service_none_log env st es2 hl (by rw [hinit])
    rw [hinit] at hmem
    rw [hmain]
    exact hmem

/-- Witness for `unresolved_service_aborts_with_raise`: the repository-miss
mode (service id absent, its identifier logged) and the construction-failure
mode (service entity present, factory raises, its name logged). -/
theorem unresolved_service_aborts_with_raise_witness :
    ((get_energy_monitor envC2 stEmpty srcS2).1 =
        Except.error (PyErr.valueErrorUnableToLoadService idES1 emM2.name)
      ∧ (get_energy_monitor envC2 stEmpty srcS2).2.instance_cache
          = stEmpty.instance_cache
      ∧ LogEvent.errorServiceNotFound idES1
          ∈ (get_energy_monitor envC2 stEmpty srcS2).2.log)
    ∧ LogEvent.errorServiceConstruct esE1.name
        ∈ (get_energy_monitor envC2b stEmpty srcS2).2.log := by
  have h := unresolved_service_aborts_with_raise envC2 stEmpty srcS2 emM2 idM2 idES1
    (by decide) (by decide) (by decide) (by decide) (by decide)
  have h2 := unresolved_service_aborts_with_raise envC2b stEmpty srcS2 emM2 idM2 idES1
    (by decide) (by decide) (by decide) (by decide) (by decide)
  exact ⟨⟨h.1, h.2.1, h.2.2.2.1 (by decide) rfl⟩, h2.2.2.2.2 esE1 (by decide) rfl⟩

/-- C8: a falsy or wrongly-typed Instance Cache entry makes every subsequent
`get_notifier` call return `None` with no factory invocation, and the getter
never overwrites or evicts the entry — it persists (the cache is unchanged)
until `remove_adapter` deletes it or `clear_all_adapters` empties the cache —
even though the logged warning announces reinitialization. -/
theorem bad_cache_entry_persists (env : Env) (st : St) (nid : EntityId) (n : Notifier)
    (cv : Option RValue)
    (hrepo : env.notifier_repo nid = some n)
    (hcache : dlookup st.instance_cache n.id = some cv)
    (hbad : cv = none ∨ ∃ v, cv = some v ∧ v.cat ≠ PortCat.notification) :
    (get_notifier env st nid).1 = Except.ok none
    ∧ (get_notifier env st nid).2.instance_cache = st.instance_cache
    ∧ (get_notifier env st nid).2.counters = st.counters
    ∧ (env.logger = true →
        LogEvent.warnCachedNone PortCat.notification n.id ∈ (get_notifier env st nid).2.log
        ∨ LogEvent.warnCachedWrongType PortCat.notification n.id
            ∈ (get_notifier env st nid).2.log)
    ∧ dlookup (remove_adapter env st n.id).instance_cache n.id = none
    ∧ (clear_all_adapters env st).instance_cache = [] := by
  have hrm : dlookup (remove_adapter env st n.id).instance_cache n.id = none := by
    unfold remove_adapter
    split <;> simp_all [dlookup_ddel_self]
  have hga : get_notifier env st nid =
      (Except.ok (adapter_cache_check env st PortCat.notification n.id cv).1,
        (adapter_cache_check env st PortCat.notification n.id cv).2) := by
    unfold get_notifier
    rw [hrepo]
    exact init_notifier_hit env st n cv hcache
  rcases hbad with hb | ⟨v, hv, hvc⟩
  · subst hb
    rw [hga, acc_none]
    refine ⟨rfl, by simp, by simp, ?_, hrm, rfl⟩
    intro hl
    left
    simp [logOn, hl]
  · subst hv
    rw [hga, acc_wrong env st PortCat.notification n.id v hvc]
    refine ⟨rfl, by simp, by simp, ?_, hrm, rfl⟩
    intro hl
    right
    simp [logOn, hl]

/-- Witness for `bad_cache_entry_persists`: notifier `idN1` with a
`MinerControlPort` object cached under its id. -/
theorem bad_cache_entry_persists_witness :
    (get_notifier envC3 stC8 idN1).1 = Except.ok none
    ∧ (get_notifier envC3 stC8 idN1).2.instance_cache = stC8.instance_cache := by
  have h := bad_cache_entry_persists envC3 stC8 idN1 nD1 (some rvWrongCat)
    (by decide) (by decide) (Or.inr ⟨rvWrongCat, rfl, by decide⟩)
  exact ⟨h.1, h.2.1⟩

/-- C3: memoization law on the notifier path.  If a first initializer call
for an uncached identifier succeeds with instance `i` (an instance satisfying
the notification port, as every in-contract factory returns), then the
notifier factory ran exactly once, `i` was cached under the notifier's id,
and a second call with no invalidation in between returns the identical `i`
straight from the cache — with every factory counter unchanged, i.e. zero
additional factory invocations. -/
theorem memoization_notifier (env : Env) (st : St) (n : Notifier) (i : RValue) (st1 : St)
    (hmiss : dlookup st.instance_cache n.id = none)
    (hfirst : init_notifier_adapter env st n = (Except.ok (some i), st1))
    (hcat : i.cat = PortCat.notification) :
    st1.counters.notifier = st.counters.notifier + 1
    ∧ dlookup st1.instance_cache n.id = some (some i)
    ∧ init_notifier_adapter env st1 n =
        (Except.ok (some i),
          logOn env st1 (LogEvent.debugCachedAdapter PortCat.notification n.id))
    ∧ (init_notifier_adapter env st1 n).2.counters = st1.counters
    ∧ (init_notifier_adapter env st1 n).2.instance_cache = st1.instance_cache := by
  have key : st1.instance_cache = dset st.instance_cache n.id (some i)
      ∧ st1.counters.notifier = st.counters.notifier + 1 := by
    unfold init_notifier_adapter at hfirst
    rw [hmiss] at hfirst
    rcases hop : opt_id_truthy n.external_service_id with _ | sid <;> rw [hop] at hfirst
    · exact notifier_try_ok env st n none i st1 hfirst
    · rcases hges : get_external_service env st sid with ⟨res, stg⟩
      simp only [hges] at hfirst
      rcases res with _ | sv
      · simp at hfirst
      · simp only at hfirst
        obtain ⟨h1, h2⟩ := notifier_try_ok env stg n (some sv) i st1 hfirst
        obtain ⟨gic, _, _, gnot, _⟩ := ges_preserves env st sid
        rw [hges] at gic gnot
        simp at gic gnot
        rw [h1, h2, gic, gnot]
        exact ⟨rfl, rfl⟩
  obtain ⟨hic1, hcnt1⟩ := key
  have hc2 : dlookup st1.instance_cache n.id = some (some i) := by
    rw [hic1]
    exact dlookup_dset_self st.instance_cache n.id (some i)
  have hsecond : init_notifier_adapter env st1 n =
      (Except.ok (some i),
        logOn env st1 (LogEvent.debugCachedAdapter PortCat.notification n.id)) := by
    unfold init_notifier_adapter
    rw [hc2]
    simp [adapter_cache_check, hcat]
  refine ⟨hcnt1, hc2, hsecond, ?_, ?_⟩
  · rw [hsecond]; simp
  · rw [hsecond]; simp

/-- Witness for `memoization_notifier`: a working dummy-notifier constructor,
first call from the empty state. -/
theorem memoization_notifier_witness :
    dlookup (init_notifier_adapter envC3 stEmpty nD1).2.instance_cache nD1.id
      = some (some rvNT1)
    ∧ (init_notifier_adapter envC3 stEmpty nD1).2.counters.notifier
        = stEmpty.counters.notifier + 1 := by
  have h := memoization_notifier envC3 stEmpty nD1 rvNT1
    (init_notifier_adapter envC3 stEmpty nD1).2 (by decide) (by decide) (by decide)
  exact ⟨h.2.1, h.1⟩

/-- C4: when `external_service_id` is `None` and the identifier is not yet
cached, the energy-monitor and forecast-provider initializers always fail —
the factory call reads the unbound local `external_service`, the resulting
`UnboundLocalError` is caught, `None` is returned, the Instance Cache is left
unchanged and no factory is invoked — whereas the miner-controller
initializer, which pre-binds `external_service = None`, constructs and
returns an instance under the same conditions. -/
theorem unbound_local_em_fp_always_fails (env : Env) (st : St) (es : EnergySource)
    (em : EnergyMonitor) (fp : ForecastProvider) (miner : Miner) (mc : MinerController)
    (v : RValue) (mid fid : EntityId)
    (hgm1 : opt_id_truthy es.energy_monitor_id = some mid)
    (hgm2 : env.energy_monitor_repo mid = some em)
    (hgf1 : opt_id_truthy es.forecast_provider_id = some fid)
    (hgf2 : env.forecast_provider_repo fid = some fp)
    (hem1 : em.external_service_id = none)
    (hem2 : dlookup st.instance_cache em.id = none)
    (hfp1 : fp.external_service_id = none)
    (hfp2 : dlookup st.instance_cache fp.id = none)
    (hmc1 : mc.external_service_id = none)
    (hmc2 : dlookup st.instance_cache mc.id = none)
    (hmc3 : mc.adapter_type = MinerControllerAdapter.GENERIC_SOCKET_HOME_ASSISTANT_API)
    (hmc4 : env.genericSocketMinerFactory miner mc.config none = Except.ok v) :
    (init_energy_monitor_adapter env st es em).1 = Except.ok none
    ∧ (init_energy_monitor_adapter env st es em).2.instance_cache = st.instance_cache
    ∧ (init_energy_monitor_adapter env st es em).2.counters = st.counters
    ∧ (init_forecast_provider_adapter env st es fp).1 = Except.ok none
    ∧ (init_forecast_provider_adapter env st es fp).2.instance_cache = st.instance_cache
    ∧ (init_forecast_provider_adapter env st es fp).2.counters = st.counters
    ∧ (init_miner_controller_adapter env st miner mc).1 = Except.ok (some v)
    ∧ (get_energy_monitor env st es).1 = Except.ok none
    ∧ (get_forecast_provider env st es).1 = Except.ok none := by
  have hEM : (init_energy_monitor_adapter env st es em).1 = Except.ok none
      ∧ (init_energy_monitor_adapter env st es em).2.instance_cache = st.instance_cache
      ∧ (init_energy_monitor_adapter env st es em).2.counters = st.counters := by
    unfold init_energy_monitor_adapter
    rw [hem2, hem1]
    rcases ht : em.adapter_type with _ | _ | _
    · simp [opt_id_truthy, em_try, ht, em_create]
    · rcases hc : em.config with _ | c <;> simp [opt_id_truthy, em_try, ht, hc, em_create]
    · simp [opt_id_truthy, em_try, ht]
  have hFP : (init_forecast_provider_adapter env st es fp).1 = Except.ok none
      ∧ (init_forecast_provider_adapter env st es fp).2.instance_cache = st.instance_cache
      ∧ (init_forecast_provider_adapter env st es fp).2.counters = st.counters := by
    unfold init_forecast_provider_adapter
    rw [hfp2, hfp1]
    rcases ht : fp.adapter_type with _ | _ | _
    · simp [opt_id_truthy, fp_try, ht, fp_create]
    · rcases hc : fp.config with _ | c <;> simp [opt_id_truthy, fp_try, ht, hc, fp_create]
    · simp [opt_id_truthy, fp_try, ht]
  have hMC : (init_miner_controller_adapter env st miner mc).1 = Except.ok (some v) := by
    unfold init_miner_controller_adapter
    rw [hmc2, hmc1]
    simp [opt_id_truthy, miner_try, hmc3, hmc4]
  have hGM : (get_energy_monitor env st es).1 = Except.ok none := by
    simp only [get_energy_monitor, hgm1]
    simp only [hgm2]
    exact hEM.1
  have hGF : (get_forecast_provider env st es).1 = Except.ok none := by
    simp only [get_forecast_provider, hgf1]
    simp only [hgf2]
    exact hFP.1
  exact ⟨hEM.1, hEM.2.1, hEM.2.2, hFP.1, hFP.2.1, hFP.2.2, hMC, hGM, hGF⟩

/-- Witness for `unbound_local_em_fp_always_fails`: dummy-solar monitor and
forecast provider with no external-service reference, plus a generic-socket
miner controller whose factory succeeds. -/
theorem unbound_local_em_fp_always_fails_witness :
    (get_energy_monitor envC4 stEmpty srcS3).1 = Except.ok none
    ∧ (get_forecast_provider envC4 stEmpty srcS3).1 = Except.ok none
    ∧ (init_miner_controller_adapter envC4 stEmpty minerX mcC1).1
        = Except.ok (some rvMC1) := by
  have h := unbound_local_em_fp_always_fails envC4 stEmpty srcS3 emM1 fpF1 minerX mcC1
    rvMC1 idM1 idFP1 (by decide) (by decide) (by decide) (by decide) (by decide)
    (by decide) (by decide) (by decide) (by decide) (by decide) (by decide) (by decide)
  exact ⟨h.2.2.2.2.2.2.2.1, h.2.2.2.2.2.2.2.2, h.2.2.2.2.2.2.1⟩

/-- C5 counterexample: one notifier whose `external_service_id` cannot be
resolved makes the whole batch call raise — the `ValueError` escapes
`get_notifiers` instead of the identifier being skipped with a warning. -/
theorem batch_raise_escape_counterexample :
    (get_notifiers envC5x stEmpty [idN1]).1 =
      Except.error (PyErr.valueErrorUnableToLoadService idES1 nX1.name) := by
  decide

/-- C5 (amended): `get_notifiers` processes every input list element-wise —
an identifier absent from the repository is logged and skipped, one that
resolves but fails to construct (unsupported `adapter_type` or a raising
factory) is skipped with a logged warning, and a successful construction
contributes exactly its instance, in input order; and whenever no reached
notifier carries a truthy `external_service_id`, the batch call always
returns a result list, so no exception escapes.  (An identifier whose truthy
`external_service_id` cannot be resolved instead raises a `ValueError` out of
the whole batch call; see the counterexample.)  The spec's scenario follows:
`[a, b, c]` with `b` unsupported yields exactly the instances of `a` and `c`
plus a logged warning for `b`. -/
theorem batch_skips_failures_collects_successes (env : Env) (st : St) (a b c : EntityId)
    (n1 n2 n3 : Notifier) (i1 i3 : RValue)
    (h1r : env.notifier_repo a = some n1) (h1id : n1.id = a)
    (h1es : n1.external_service_id = none)
    (h1t : n1.adapter_type = NotificationAdapter.DUMMY)
    (h1f : env.dummyNotifierCtor () = Except.ok i1)
    (h2r : env.notifier_repo b = some n2) (h2id : n2.id = b)
    (h2es : n2.external_service_id = none)
    (h2t : n2.adapter_type = NotificationAdapter.OTHER)
    (h3r : env.notifier_repo c = some n3) (h3id : n3.id = c)
    (h3es : n3.external_service_id = none)
    (h3t : n3.adapter_type = NotificationAdapter.TELEGRAM)
    (h3f : env.telegramNotifierFactory n3.config none = Except.ok i3)
    (hca : dlookup st.instance_cache a = none)
    (hcb : dlookup st.instance_cache b = none)
    (hcc : dlookup st.instance_cache c = none)
    (hba : b ≠ a) (hcva : c ≠ a)
    (hlog : env.logger = true) :
    (∀ ids : List EntityId, ∀ st0 : St, no_service_refs env ids = true →
        ∃ l st2, get_notifiers env st0 ids = (Except.ok l, st2))
    ∧ (∀ nid : EntityId, ∀ rest : List EntityId, ∀ st0 : St,
        env.notifier_repo nid = none →
        get_notifiers env st0 (nid :: rest)
          = get_notifiers env (logOn env st0 (LogEvent.errorNotifierNotFound nid)) rest)
    ∧ (∀ nid : EntityId, ∀ rest : List EntityId, ∀ st0 st1 st2 : St,
        ∀ n : Notifier, ∀ i : RValue, ∀ l : List RValue,
        env.notifier_repo nid = some n →
        init_notifier_adapter env st0 n = (Except.ok (some i), st1) →
        get_notifiers env st1 rest = (Except.ok l, st2) →
        get_notifiers env st0 (nid :: rest) = (Except.ok (i :: l), st2))
    ∧ (∀ nid : EntityId, ∀ rest : List EntityId, ∀ st0 st1 : St, ∀ n : Notifier,
        env.notifier_repo nid = some n →
        init_notifier_adapter env st0 n = (Except.ok none, st1) →
        get_notifiers env st0 (nid :: rest)
          = get_notifiers env (logOn env st1 (LogEvent.warnNotifierFailed n.id)) rest)
    ∧ ((get_notifiers env st [a, b, c]).1 = Except.ok [i1, i3]
        ∧ LogEvent.warnNotifierFailed b ∈ (get_notifiers env st [a, b, c]).2.log) := by
  refine ⟨?_, ?_, ?_, ?_, ?_⟩
  · intro ids
    induction ids with
    | nil =>
      intro st0 hall
      exact ⟨[], st0, rfl⟩
    | cons nid rest ih =>
      intro st0 hall
      simp only [no_service_refs, List.all_cons, Bool.and_eq_true] at hall
      obtain ⟨hhd, htl⟩ := hall
      have htl2 : no_service_refs env rest = true := htl
      rcases hr : env.notifier_repo nid with _ | n
      · obtain ⟨l, st2, hrec⟩ :=
          ih (logOn env st0 (LogEvent.errorNotifierNotFound nid)) htl2
        refine ⟨l, st2, ?_⟩
        simp only [get_notifiers, hr]
        exact hrec
      · rw [hr] at hhd
        simp only [Option.isNone_iff_eq_none] at hhd
        obtain ⟨r, st1, hinit⟩ := init_notifier_no_raise env st0 n hhd
        rcases r with _ | i
        · obtain ⟨l, st2, hrec⟩ :=
            ih (logOn env st1 (LogEvent.warnNotifierFailed n.id)) htl2
          refine ⟨l, st2, ?_⟩
          simp only [get_notifiers, hr, hinit]
          exact hrec
        · obtain ⟨l, st2, hrec⟩ := ih st1 htl2
          refine ⟨i :: l, st2, ?_⟩
          simp only [get_notifiers, hr, hinit, hrec]
  · intro nid rest st0 h
    simp only [get_notifiers, h]
  · intro nid rest st0 st1 st2 n i l hr hinit hrec
    simp only [get_notifiers, hr, hinit, hrec]
  · intro nid rest st0 st1 n hr hinit
    simp only [get_notifiers, hr, hinit]
  · have e1 : init_notifier_adapter env st n1 =
        (Except.ok (some i1),
          { bumpNotifier st with instance_cache := dset st.instance_cache n1.id (some i1) }) :=
      init_notifier_miss_dummy_ok env st n1 i1 (by rw [h1id]; exact hca) h1es h1t h1f
    have e2 : init_notifier_adapter env
        { bumpNotifier st with instance_cache := dset st.instance_cache n1.id (some i1) } n2 =
        (Except.ok none,
          logOn env
            { bumpNotifier st with instance_cache := dset st.instance_cache n1.id (some i1) }
            (LogEvent.errorAdapterConstruct PortCat.notification n2.name)) := by
      refine init_notifier_miss_unsupported env _ n2 ?_ h2es h2t
      show dlookup (dset st.instance_cache n1.id (some i1)) n2.id = none
      rw [h2id, dlookup_dset_ne st.instance_cache n1.id b (some i1) (by rw [h1id]; exact hba)]
      exact hcb
    have e3 : init_notifier_adapter env
        (logOn env
          (logOn env
            { bumpNotifier st with instance_cache := dset st.instance_cache n1.id (some i1) }
            (LogEvent.errorAdapterConstruct PortCat.notification n2.name))
          (LogEvent.warnNotifierFailed n2.id)) n3 =
        (Except.ok (some i3),
          { bumpNotifier
              (logOn env
                (logOn env
                  { bumpNotifier st with
                    instance_cache := dset st.instance_cache n1.id (some i1) }
                  (LogEvent.errorAdapterConstruct PortCat.notification n2.name))
                (LogEvent.warnNotifierFailed n2.id)) with
            instance_cache := dset (dset st.instance_cache n1.id (some i1)) n3.id (some i3) }) := by
      have h0 : dlookup (logOn env
          (logOn env
            { bumpNotifier st with instance_cache := dset st.instance_cache n1.id (some i1) }
            (LogEvent.errorAdapterConstruct PortCat.notification n2.name))
          (LogEvent.warnNotifierFailed n2.id)).instance_cache n3.id = none := by
        rw [logOn_instance_cache, logOn_instance_cache]
        show dlookup (dset st.instance_cache n1.id (some i1)) n3.id = none
        rw [h3id, dlookup_dset_ne st.instance_cache n1.id c (some i1) (by rw [h1id]; exact hcva)]
        exact hcc
      have h4 := init_notifier_miss_telegram_ok env
        (logOn env
          (logOn env
            { bumpNotifier st with instance_cache := dset st.instance_cache n1.id (some i1) }
            (LogEvent.errorAdapterConstruct PortCat.notification n2.name))
          (LogEvent.warnNotifierFailed n2.id)) n3 i3 h0 h3es h3t h3f
      rw [h4]
      simp only [logOn_instance_cache]
    constructor
    · simp only [get_notifiers, h1r, e1]
      simp only [get_notifiers, h2r, e2]
      simp only [get_notifiers, h3r, e3]
    · simp only [get_notifiers, h1r, e1]
      simp only [get_notifiers, h2r, e2]
      simp only [get_notifiers, h3r, e3]
      simp [get_notifiers, logOn, hlog, bumpNotifier, h2id]

/-- Witness for `batch_skips_failures_collects_successes`: the concrete
three-notifier scenario, plus the no-escape conjunct applied to a list whose
first identifier is absent from the notifier repository. -/
theorem batch_skips_failures_witness :
    ((get_notifiers envC5 stEmpty [idN1, idN2, idN3]).1 = Except.ok [rvNT1, rvNT3]
      ∧ LogEvent.warnNotifierFailed idN2
          ∈ (get_notifiers envC5 stEmpty [idN1, idN2, idN3]).2.log)
    ∧ (∃ l st2, get_notifiers envC5 stEmpty [idM1, idN1, idN2] = (Except.ok l, st2)) := by
  have h := batch_skips_failures_collects_successes envC5 stEmpty idN1 idN2 idN3
    nD1 nU2 nT3 rvNT1 rvNT3 (by decide) (by decide) (by decide) (by decide) (by decide)
    (by decide) (by decide) (by decide) (by decide) (by decide) (by decide) (by decide)
    (by decide) (by decide) (by decide) (by decide) (by decide) (by decide) (by decide)
    (by decide)
  exact ⟨h.2.2.2.2, h.1 [idM1, idN1, idN2] stEmpty (by decide)⟩

/-- C6: shared-dependency and construct-once law for external services.
While the Service Cache holds an entry for an identifier, every resolution
through `get_external_service` — direct, or on behalf of any adapter
construction, all of which call this same method — returns that same
constructed instance and invokes no factory at all; and on the first
successful construction the instance is stored under the identifier with
exactly one service-factory invocation. -/
theorem shared_service_construct_once (env : Env) (st : St) (sid : EntityId)
    (es : ExternalService) (v w : RValue)
    (hrepo : env.external_service_repo sid = some es)
    (hid : es.id = sid) :
    (dlookup st.service_cache sid = some v →
      get_external_service env st sid
        = (some v, logOn env st (LogEvent.debugCachedService sid))
      ∧ (get_external_service env st sid).2.counters = st.counters
      ∧ (get_external_service env st sid).2.service_cache = st.service_cache)
    ∧ (dlookup st.service_cache sid = none →
        es.adapter_type = ExternalServiceAdapter.HOME_ASSISTANT_API →
        env.serviceHomeAssistantFactory es.config = Except.ok w →
        (get_external_service env st sid).1 = some w
        ∧ dlookup (get_external_service env st sid).2.service_cache sid = some w
        ∧ (get_external_service env st sid).2.counters.service
            = st.counters.service + 1) := by
  constructor
  · intro hhit
    have heq : get_external_service env st sid =
        (some v, logOn env st (LogEvent.debugCachedService sid)) := by
      simp only [get_external_service, hrepo]
      simp only [init_external_service, hid, hhit]
    exact ⟨heq, by rw [heq]; simp, by rw [heq]; simp⟩
  · intro hmiss hha hok
    have heq : get_external_service env st sid =
        (some w, { bumpService st with service_cache := dset st.service_cache sid w }) := by
      simp only [get_external_service, hrepo]
      simp only [init_external_service, hid, hmiss, hha, hok]
      rfl
    refine ⟨by rw [heq], ?_, ?_⟩
    · rw [heq]
      exact dlookup_dset_self st.service_cache sid w
    · rw [heq]
      simp [bumpService]

/-- Witness for `shared_service_construct_once`: a cache hit returns the
cached instance with all counters untouched, and a first construction from
the empty state stores the instance under its identifier. -/
theorem shared_service_construct_once_witness :
    (get_external_service envC6 stC6 idES1).1 = some rvES1
    ∧ (get_external_service envC6 stC6 idES1).2.counters = stC6.counters
    ∧ dlookup (get_external_service envC6 stEmpty idES1).2.service_cache idES1
        = some rvES1 := by
  have h1 := (shared_service_construct_once envC6 stC6 idES1 esE1 rvES1 rvES1
    (by decide) (by decide)).1 (by decide)
  have h2 := (shared_service_construct_once envC6 stEmpty idES1 esE1 rvES1 rvES1
    (by decide) (by decide)).2 (by decide) (by decide) (by decide)
  exact ⟨by rw [h1.1], h1.2.1, h2.2.1⟩

/-- C7: a notifier-getter call that produces no constructed instance — the
entity is absent from its repository, its `adapter_type` has no registered
factory, or the factory itself raises — returns `None` and leaves the
Instance Cache unchanged (no entry created or modified), so the next call
for the same identifier retries construction from scratch. -/
theorem getter_failure_cache_unchanged (env : Env) (st : St) (nid : EntityId)
    (n : Notifier) (e : PyErr) :
    (env.notifier_repo nid = none →
      (get_notifier env st nid).1 = Except.ok none
      ∧ (get_notifier env st nid).2.instance_cache = st.instance_cache)
    ∧ (env.notifier_repo nid = some n → dlookup st.instance_cache n.id = none →
        n.external_service_id = none → n.adapter_type = NotificationAdapter.OTHER →
        (get_notifier env st nid).1 = Except.ok none
        ∧ (get_notifier env st nid).2.instance_cache = st.instance_cache)
    ∧ (env.notifier_repo nid = some n → dlookup st.instance_cache n.id = none →
        n.external_service_id = none → n.adapter_type = NotificationAdapter.TELEGRAM →
        env.telegramNotifierFactory n.config none = Except.error e →
        (get_notifier env st nid).1 = Except.ok none
        ∧ (get_notifier env st nid).2.instance_cache = st.instance_cache) := by
  refine ⟨?_, ?_, ?_⟩
  · intro h
    simp only [get_notifier, h]
    exact ⟨trivial, by simp⟩
  · intro hr h0 h1 h2
    simp only [get_notifier, hr]
    rw [init_notifier_miss_unsupported env st n h0 h1 h2]
    exact ⟨rfl, by simp⟩
  · intro hr h0 h1 h2 h3
    simp only [get_notifier, hr]
    rw [init_notifier_miss_telegram_err env st n e h0 h1 h2 h3]
    exact ⟨rfl, by simp [bumpNotifier]⟩

/-- Witness for `getter_failure_cache_unchanged`: an id absent from the
repository, an unsupported notifier, and a failing telegram factory. -/
theorem getter_failure_cache_unchanged_witness :
    (get_notifier envC7 stEmpty idN3).1 = Except.ok none
    ∧ (get_notifier envC7 stEmpty idN1).1 = Except.ok none
    ∧ (get_notifier envC7 stEmpty idN2).1 = Except.ok none
    ∧ (get_notifier envC7 stEmpty idN2).2.instance_cache = stEmpty.instance_cache := by
  have hA := (getter_failure_cache_unchanged envC7 stEmpty idN3 nU2
    (PyErr.factoryFailure 0)).1 (by decide)
  have hB := (getter_failure_cache_unchanged envC7 stEmpty idN1 nU2
    (PyErr.factoryFailure 0)).2.1 (by decide) (by decide) (by decide) (by decide)
  have hC := (getter_failure_cache_unchanged envC7 stEmpty idN2 nT3
    (PyErr.factoryFailure 0)).2.2 (by decide) (by decide) (by decide) (by decide)
    (by decide)
  exact ⟨hA.1, hB.1, hC.1, hC.2⟩

/-- C9 counterexample: `get_external_service` returns a Service Cache hit
without re-checking the capability port — a cached value satisfying only
`NotificationPort` is returned unchanged. -/
theorem service_hit_unchecked_counterexample :
    (get_external_service envC9 stC9 idES1).1 = some rvBadService
    ∧ rvBadService.cat ≠ PortCat.externalService := by
  decide

/-- C9 (amended): adapter Instance Cache reads re-check on every read that
the cached entry is truthy and satisfies the requested category's port,
returning `None` otherwise; `get_external_service`, by contrast, performs no
re-check on its own cache: a Service Cache hit is returned as-is, whatever
value it holds. -/
theorem cache_recheck_asymmetry (env : Env) (st : St) (c : PortCat) (id : EntityId)
    (v : RValue) (sid : EntityId) (es : ExternalService)
    (hrepo : env.external_service_repo sid = some es) (hid : es.id = sid)
    (hhit : dlookup st.service_cache sid = some v) :
    (v.cat = c →
      adapter_cache_check env st c id (some v)
        = (some v, logOn env st (LogEvent.debugCachedAdapter c id)))
    ∧ (v.cat ≠ c → (adapter_cache_check env st c id (some v)).1 = none)
    ∧ (adapter_cache_check env st c id none).1 = none
    ∧ (get_external_service env st sid).1 = some v := by
  refine ⟨?_, ?_, ?_, ?_⟩
  · intro h
    exact acc_good env st c id v h
  · intro h
    rw [acc_wrong env st c id v h]
  · rw [acc_none]
  · simp only [get_external_service, hrepo]
    simp only [init_external_service, hid, hhit]

/-- Witness for `cache_recheck_asymmetry`: the corrupted Service Cache entry
is returned unchecked, while the adapter-side check rejects the same value. -/
theorem cache_recheck_asymmetry_witness :
    (adapter_cache_check envC9 stC9 PortCat.notification idA (some rvBadService)).1
      = some rvBadService
    ∧ (adapter_cache_check envC9 stC9 PortCat.externalService idA (some rvBadService)).1
        = none
    ∧ (get_external_service envC9 stC9 idES1).1 = some rvBadService := by
  have h := cache_recheck_asymmetry envC9 stC9 PortCat.notification idA rvBadService
    idES1 esE1 (by decide) (by decide) (by decide)
  have h2 := cache_recheck_asymmetry envC9 stC9 PortCat.externalService idA rvBadService
    idES1 esE1 (by decide) (by decide) (by decide)
  exact ⟨by rw [h.1 (by decide)], h2.2.1 (by decide), h.2.2.2⟩

end EdgeMining
